import Mathlib

/-!
# Verification of the SFCC Content Updater core

Shallow embedding of the extension's core logic: the OAuth token manager
(`AuthService`), the REST client error classification and retry policy
(`ContentAssetService` plus its `axios-retry` configuration), the content
tree listing (`ContentTreeProvider.getChildren`), and the push/pull sync
state machine of `extension.ts` (`documentAssetMap` / `dirtyDocuments`).

Time is modelled as epoch milliseconds (`Int`); the network is modelled as
an explicit parameter supplying the outcome of each request, and every
operation additionally reports which network calls it issued.
-/

namespace SFCC

/-! ## Data model (`config.model.ts`) -/

/-- `LocalizedString`: SFCC locale map; only the `default` entry is read by
this extension (`asset.name?.default`), so only it is modelled. -/
structure LocalizedString where
  default : Option String
deriving DecidableEq

/-- `ContentAssetMetadata`: lightweight listing entry. -/
structure ContentAssetMetadata where
  id : String
  name : Option LocalizedString := none
  description : Option LocalizedString := none
  online : Bool := true
  template : Option String := none
  last_modified : Option String := none
deriving DecidableEq

/-- `ContentAsset`: full entity; `attrs` models the open-ended additional
backend attributes (`[key: string]: any`). -/
structure ContentAsset where
  id : String
  c_body : Option String := none
  attrs : List (String × String) := []
deriving DecidableEq

/-! ## Token manager (`auth.service.ts`, class `AuthService`) -/

/-- The mutable fields of `AuthService`: `accessToken` and `tokenExpiry`
(epoch milliseconds; `null` is `none`). -/
structure AuthState where
  accessToken : Option String
  tokenExpiry : Option Int
deriving DecidableEq

/-- `AuthService.isTokenValid`: false when `!this.accessToken` (JS
truthiness: `null` or the empty string) or `!this.tokenExpiry`; otherwise
`now < tokenExpiry - 60000`. -/
def isTokenValid (s : AuthState) (now : Int) : Bool :=
  match s.accessToken, s.tokenExpiry with
  | some t, some e => decide (t ≠ "") && decide (now < e - 60000)
  | _, _ => false

/-- `AuthService.clearToken`: sets both fields to `null`. -/
def clearToken (_ : AuthState) : AuthState :=
  { accessToken := none, tokenExpiry := none }

/-- Outcome of the client-credentials grant POST performed by
`AuthService.requestNewToken` (the network is a parameter of the model). -/
inductive GrantResult
  | success (accessToken : String) (expiresIn : Int)
  | failure (message : String)
deriving DecidableEq

/-- `AuthService.getAccessToken`: return the cached token when
`isTokenValid`, else perform the grant (`requestNewToken`); on success
store the token and `tokenExpiry = now + (expires_in - 60) * 1000` and
return it; on failure surface the error with the state unchanged.  The
third component records whether a network call was performed. -/
def getAccessToken (s : AuthState) (now : Int) (grant : GrantResult) :
    Except String String × AuthState × Bool :=
  if isTokenValid s now then
    (.ok (s.accessToken.getD ""), s, false)
  else
    match grant with
    | .success tok expiresIn =>
        (.ok tok,
         { accessToken := some tok,
           tokenExpiry := some (now + (expiresIn - 60) * 1000) }, true)
    | .failure msg => (.error msg, s, true)

/-! ## REST client error classification (`content.service.ts`) -/

/-- The shape of an axios error as inspected by `handleError`:
`code` (e.g. `ENOTFOUND`), `response?.status` (`none` means no response
was received), the backend fault message `response.data.fault.message`,
and `config.method` (read by the retry predicates). -/
structure AxError where
  isAxiosError : Bool := true
  method : String := "get"
  code : Option String := none
  status : Option Nat := none
  faultMessage : Option String := none
  message : String := ""
deriving DecidableEq

/-- The error classes thrown by `ContentAssetService.handleError`, one per
branch of the source. -/
inductive OcapiErrorKind
  | cannotReach
  | timedOut
  | authenticationFailed
  | permissionDenied
  | notFound
  | conflict
  | serverError (status : Nat)
  | fault (message : String)
  | generic (message : String)
deriving DecidableEq

/-- The guard `axiosError.response?.status && status >= 500` (a status of
`0` would be falsy in JS, but `500 ≤ s` already excludes it). -/
def statusAtLeast500 : Option Nat → Bool
  | some s => decide (500 ≤ s)
  | none => false

/-- `ContentAssetService.handleError`: classifies a data-call error in
source order (`ENOTFOUND`, `ETIMEDOUT`, 401, 403, 404, 409, `>= 500`,
backend fault message, generic); the 401 branch calls
`authService.clearToken()` before throwing. -/
def handleError (auth : AuthState) (e : AxError) : OcapiErrorKind × AuthState :=
  if e.isAxiosError then
    if e.code = some "ENOTFOUND" then (.cannotReach, auth)
    else if e.code = some "ETIMEDOUT" then (.timedOut, auth)
    else if e.status = some 401 then (.authenticationFailed, clearToken auth)
    else if e.status = some 403 then (.permissionDenied, auth)
    else if e.status = some 404 then (.notFound, auth)
    else if e.status = some 409 then (.conflict, auth)
    else if statusAtLeast500 e.status then (.serverError (e.status.getD 0), auth)
    else
      match e.faultMessage with
      | some m => (.fault m, auth)
      | none => (.generic e.message, auth)
  else (.generic e.message, auth)

/-! ## Retry policy (`axiosRetry` configuration in `content.service.ts`)

The service configures `axios-retry` with `retries: 3` and
`retryCondition: isNetworkOrIdempotentRequestError(error) ||
(error.response?.status ?? 0) >= 500`.  The helper predicates below are
modelled from the `axios-retry` dependency (and its `is-retry-allowed`
helper), which is not part of this repository. -/

/-- `IDEMPOTENT_HTTP_METHODS` of `axios-retry`. -/
def idempotentHttpMethods : List String :=
  ["get", "head", "options", "put", "delete"]

/-- Error codes denied by the `is-retry-allowed` helper of `axios-retry`
(DNS/routing failures and TLS certificate errors). -/
def retryDeniedCodes : List String :=
  ["ENOTFOUND", "ENETUNREACH", "UNABLE_TO_GET_ISSUER_CERT", "UNABLE_TO_GET_CRL",
   "UNABLE_TO_DECRYPT_CERT_SIGNATURE", "UNABLE_TO_DECRYPT_CRL_SIGNATURE",
   "UNABLE_TO_DECODE_ISSUER_PUBLIC_KEY", "CERT_SIGNATURE_FAILURE",
   "CRL_SIGNATURE_FAILURE", "CERT_NOT_YET_VALID", "CERT_HAS_EXPIRED",
   "CRL_NOT_YET_VALID", "CRL_HAS_EXPIRED", "ERROR_IN_CERT_NOT_BEFORE_FIELD",
   "ERROR_IN_CERT_NOT_AFTER_FIELD", "ERROR_IN_CRL_LAST_UPDATE_FIELD",
   "ERROR_IN_CRL_NEXT_UPDATE_FIELD", "OUT_OF_MEM", "DEPTH_ZERO_SELF_SIGNED_CERT",
   "SELF_SIGNED_CERT_IN_CHAIN", "UNABLE_TO_GET_ISSUER_CERT_LOCALLY",
   "UNABLE_TO_VERIFY_LEAF_SIGNATURE", "CERT_CHAIN_TOO_LONG", "CERT_REVOKED",
   "INVALID_CA", "PATH_LENGTH_EXCEEDED", "INVALID_PURPOSE", "CERT_UNTRUSTED",
   "CERT_REJECTED", "HOSTNAME_MISMATCH"]

/-- `is-retry-allowed`: a coded error is retryable unless its code is on
the deny list. -/
def isRetryAllowed (e : AxError) : Bool :=
  match e.code with
  | some c => !(retryDeniedCodes.contains c)
  | none => true

/-- `axios-retry` `isNetworkError`: no response received, an error code is
present, it is not an abort, and `is-retry-allowed` accepts it. -/
def isNetworkError (e : AxError) : Bool :=
  e.status.isNone && e.code.isSome &&
    !(e.code = some "ECONNABORTED" : Bool) && isRetryAllowed e

/-- `axios-retry` `isRetryableError`: not an abort, and either no response
or a 5xx status. -/
def isRetryableError (e : AxError) : Bool :=
  !(e.code = some "ECONNABORTED" : Bool) &&
    (e.status.isNone ||
      (statusAtLeast500 e.status && decide (e.status.getD 0 ≤ 599)))

/-- `axios-retry` `isIdempotentRequestError`: the request method is
idempotent and the error is retryable. -/
def isIdempotentRequestError (e : AxError) : Bool :=
  idempotentHttpMethods.contains e.method && isRetryableError e

/-- `axios-retry` `isNetworkOrIdempotentRequestError`. -/
def isNetworkOrIdempotentRequestError (e : AxError) : Bool :=
  isNetworkError e || isIdempotentRequestError e

/-- The `retryCondition` configured by `ContentAssetService`: retry on a
network-or-idempotent-request error or any response status `>= 500`. -/
def retryCondition (e : AxError) : Bool :=
  isNetworkOrIdempotentRequestError e || decide (500 ≤ e.status.getD 0)

/-- The `axios-retry` loop: attempt `idx`; on success stop, on an error
satisfying `retryCondition` retry while retries remain.  Returns the final
result and the total number of attempts performed.  `attempts` is the
environment: the outcome of each successive attempt. -/
def runRequest {α : Type} (attempts : Nat → Except AxError α) :
    Nat → Nat → Except AxError α × Nat
  | retriesLeft, idx =>
    match attempts idx with
    | .ok a => (.ok a, idx + 1)
    | .error e =>
      match retriesLeft with
      | 0 => (.error e, idx + 1)
      | r + 1 =>
        if retryCondition e then runRequest attempts r (idx + 1)
        else (.error e, idx + 1)

/-- A data call of `ContentAssetService` under the configured policy
(`retries: 3`, so one initial attempt plus up to three retries). -/
def performDataCall {α : Type} (attempts : Nat → Except AxError α) :
    Except AxError α × Nat :=
  runRequest attempts 3 0

/-! ## Listing (`contentTree.provider.ts`, class `ContentTreeProvider`) -/

/-- JS `o || d` on an optional string: falls back to `d` when `o` is
absent or the empty string (falsy). -/
def jsStringOr (o : Option String) (d : String) : String :=
  match o with
  | some s => if s = "" then d else s
  | none => d

/-- `s.toLowerCase()`, on the character list of the string. -/
def lowerKey (s : String) : List Char :=
  s.data.map Char.toLower

/-- The comparison key of the `getChildren` sort:
`(a.name?.default || a.id).toLowerCase()`, as a character list. -/
def sortKey (a : ContentAssetMetadata) : List Char :=
  lowerKey (jsStringOr (a.name.bind LocalizedString.default) a.id)

/-- Ordering used by the listing comparator
`nameA.localeCompare(nameB)`, modelled as lexicographic code-point order
on the lowercased keys. -/
def assetLE (a b : ContentAssetMetadata) : Prop :=
  sortKey a ≤ sortKey b

instance : DecidableRel assetLE :=
  fun a b => inferInstanceAs (Decidable (sortKey a ≤ sortKey b))

instance : IsTotal ContentAssetMetadata assetLE :=
  ⟨fun a b => le_total (sortKey a) (sortKey b)⟩

instance : IsTrans ContentAssetMetadata assetLE :=
  ⟨fun _ _ _ h₁ h₂ => le_trans h₁ h₂⟩

/-- `assets.sort(comparator)` of `getChildren`: JS `Array.prototype.sort`
is stable, modelled as a stable insertion sort by the comparator. -/
def sortAssets (l : List ContentAssetMetadata) : List ContentAssetMetadata :=
  l.insertionSort assetLE

/-- The only mutable field of `ContentTreeProvider` relevant to load
coordination: `isLoading`. -/
structure TreeProviderState where
  isLoading : Bool
deriving DecidableEq

/-- Result of the synchronous head of `getChildren`, before any await. -/
inductive GetChildrenStart
  | immediate (items : List ContentAssetMetadata)
  | fetching
deriving DecidableEq

/-- The part of `getChildren` up to its suspension point: children of an
element node are `[]`; if `isLoading` return `[]` without fetching;
otherwise set `isLoading := true` and issue the backend list request.
The final component records whether a backend request was issued. -/
def getChildrenStart (element : Option ContentAssetMetadata)
    (s : TreeProviderState) :
    GetChildrenStart × TreeProviderState × Bool :=
  match element with
  | some _ => (.immediate [], s, false)
  | none =>
    if s.isLoading then (.immediate [], s, false)
    else (.fetching, { isLoading := true }, true)

/-- The part of `getChildren` after the awaited list request: on success
return the sorted assets, on error return `[]`; the `finally` block clears
`isLoading` on both paths. -/
def getChildrenFinish (fetch : Except String (List ContentAssetMetadata)) :
    List ContentAssetMetadata × TreeProviderState :=
  match fetch with
  | .ok assets => (sortAssets assets, { isLoading := false })
  | .error _ => ([], { isLoading := false })

/-! ## Push/pull sync state (`extension.ts`) -/

/-- The active editor as read by push/pull: its document URI (the buffer
identity) and current text. -/
structure EditorDoc where
  uri : String
  content : String
deriving DecidableEq

/-- The module-level sync state of `extension.ts`: `documentAssetMap`
(insertion-ordered map, as a JS `Map`) and `dirtyDocuments` (a JS `Set`,
as the list of its members). -/
structure ExtensionState where
  documentAssetMap : List (String × ContentAsset)
  dirtyDocuments : List String
deriving DecidableEq

/-- `documentAssetMap.get(uri)`. -/
def lookupAsset (m : List (String × ContentAsset)) (uri : String) :
    Option ContentAsset :=
  (m.find? (fun p => p.1 = uri)).map Prod.snd

/-- `documentAssetMap.set(uri, a)`: replace in place, or append. -/
def setAsset (m : List (String × ContentAsset)) (uri : String)
    (a : ContentAsset) : List (String × ContentAsset) :=
  if m.any (fun p => p.1 = uri) then
    m.map (fun p => if p.1 = uri then (uri, a) else p)
  else m ++ [(uri, a)]

/-- `dirtyDocuments.delete(uri)`. -/
def eraseDirty (d : List String) (uri : String) : List String :=
  d.filter (fun u => u ≠ uri)

/-- An HTTP call issued against the backend by a sync operation. -/
inductive NetworkCall
  | httpGet (assetId : String)
  | httpPatch (assetId : String) (payload : List (String × String))
deriving DecidableEq

/-- Outcome of `pushCurrentDocument`. -/
inductive PushOutcome
  | noEditor
  | notTracked
  | pushed (assetId : String)
  | pushFailed (assetId : String) (err : OcapiErrorKind)
deriving DecidableEq

/-- Result of `pushCurrentDocument`: outcome, resulting sync state and
auth state, and the network calls issued (the bearer-token interceptor
and the HTTP request run only when a call is issued). -/
structure PushResult where
  outcome : PushOutcome
  state : ExtensionState
  auth : AuthState
  calls : List NetworkCall
deriving DecidableEq

/-- `pushCurrentDocument`: refuse without an active editor; refuse when
the URI is not in `documentAssetMap`; otherwise PATCH the asset with the
single-attribute payload `{ c_body: editor text }` and on success delete
the URI from `dirtyDocuments`; on error the caught exception is classified
by `handleError` (which may clear the token) and the sync state is left
unchanged. -/
def pushCurrentDocument (editor : Option EditorDoc) (s : ExtensionState)
    (auth : AuthState) (patchResult : Except AxError ContentAsset) :
    PushResult :=
  match editor with
  | none => ⟨.noEditor, s, auth, []⟩
  | some ed =>
    match lookupAsset s.documentAssetMap ed.uri with
    | none => ⟨.notTracked, s, auth, []⟩
    | some asset =>
      match patchResult with
      | .ok _ =>
        ⟨.pushed asset.id,
         { s with dirtyDocuments := eraseDirty s.dirtyDocuments ed.uri },
         auth,
         [.httpPatch asset.id [("c_body", ed.content)]]⟩
      | .error e =>
        let classified := handleError auth e
        ⟨.pushFailed asset.id classified.1, s, classified.2,
         [.httpPatch asset.id [("c_body", ed.content)]]⟩

/-- Outcome of `pullCurrentDocument`. -/
inductive PullOutcome
  | noEditor
  | notTracked
  | cancelled
  | pulled (assetId : String)
  | pullFailed (assetId : String) (err : OcapiErrorKind)
deriving DecidableEq

/-- Result of `pullCurrentDocument`: additionally records whether the
overwrite warning was shown (`askedConfirmation`) and, when the buffer was
overwritten, the replacement text (`bufferReplacedWith = none` means the
buffer content was left untouched). -/
structure PullResult where
  outcome : PullOutcome
  state : ExtensionState
  auth : AuthState
  calls : List NetworkCall
  askedConfirmation : Bool
  bufferReplacedWith : Option String
deriving DecidableEq

/-- `pullCurrentDocument`: refuse without an editor or binding; if the
buffer is dirty, warn first and return unchanged unless the answer is
`Pull Anyway`; otherwise GET the asset, replace the whole buffer with
`freshAsset.c_body || ''`, store the fresh asset in `documentAssetMap`
and delete the URI from `dirtyDocuments`; on error the exception is
classified by `handleError` and the sync state is left unchanged.
`answer` is the reply to the warning (`none`: dismissed). -/
def pullCurrentDocument (editor : Option EditorDoc) (s : ExtensionState)
    (auth : AuthState) (answer : Option String)
    (getResult : Except AxError ContentAsset) : PullResult :=
  match editor with
  | none => ⟨.noEditor, s, auth, [], false, none⟩
  | some ed =>
    match lookupAsset s.documentAssetMap ed.uri with
    | none => ⟨.notTracked, s, auth, [], false, none⟩
    | some asset =>
      let isDirty := s.dirtyDocuments.contains ed.uri
      if isDirty ∧ answer ≠ some "Pull Anyway" then
        ⟨.cancelled, s, auth, [], true, none⟩
      else
        match getResult with
        | .ok fresh =>
          ⟨.pulled asset.id,
           { documentAssetMap := setAsset s.documentAssetMap ed.uri fresh,
             dirtyDocuments := eraseDirty s.dirtyDocuments ed.uri },
           auth, [.httpGet asset.id], isDirty,
           some (fresh.c_body.getD "")⟩
        | .error e =>
          let classified := handleError auth e
          ⟨.pullFailed asset.id classified.1, s, classified.2,
           [.httpGet asset.id], isDirty, none⟩

/-! ## Concrete inputs used by the example theorems -/

/-- Listing example record with id `b` and localized name `Alpha`. -/
def assetNamedUpper : ContentAssetMetadata :=
  { id := "b", name := some ⟨some "Alpha"⟩ }

/-- Listing example record with id `a` and localized name `alpha`. -/
def assetNamedLower : ContentAssetMetadata :=
  { id := "a", name := some ⟨some "alpha"⟩ }

/-- Listing example record with id `c` and no localized name. -/
def assetUnnamed : ContentAssetMetadata :=
  { id := "c" }

/-- The cache-hit condition of the token manager, stated independently of
the implementation: a non-empty token is cached together with an expiry,
and the current time is before the expiry minus the 60-second margin. -/
def CacheHit (s : AuthState) (now : Int) : Prop :=
  ∃ t e, s.accessToken = some t ∧ t ≠ "" ∧ s.tokenExpiry = some e ∧
    now < e - 60000

/-! ## Theorems -/

/-- `isTokenValid` decides exactly the cache-hit condition. -/
theorem isTokenValid_iff_cacheHit (s : AuthState) (now : Int) :
    isTokenValid s now = true ↔ CacheHit s now := by
  cases s with
  | mk tok exp =>
    cases tok <;> cases exp <;>
      simp [isTokenValid, CacheHit]

/-- C1 counterexample: the claim quantifies over every state in which a
cached token exists, but with the empty string cached as token (and an
expiry far in the future) the source's truthiness check
`!this.accessToken` treats the cache as absent: a network call is
performed and the grant result, not the cached token, is returned. -/
theorem c1_cache_hit_counterexample :
    (AuthState.mk (some "") (some 1000000)).accessToken = some "" ∧
    ((0 : Int) < 1000000 - 60000) ∧
    (getAccessToken ⟨some "", some 1000000⟩ 0
      (.success "freshtoken" 1800)).2.2 = true ∧
    (getAccessToken ⟨some "", some 1000000⟩ 0
      (.success "freshtoken" 1800)).1 = .ok "freshtoken" := by
  refine ⟨rfl, by decide, by decide, rfl⟩

/-- C1 (amended): if a cached non-empty token exists and now is before the
stored expiry minus 60 seconds, the cached token is returned and no
network call is made; otherwise a grant is performed (a network call
happens) and, on success, the token is stored with
`expiry = now + (expires_in - 60s)` and returned. -/
theorem c1_token_cache_determinism (s : AuthState) (now : Int)
    (grant : GrantResult) :
    (∀ t, s.accessToken = some t → CacheHit s now →
      getAccessToken s now grant = (.ok t, s, false)) ∧
    (¬ CacheHit s now →
      (getAccessToken s now grant).2.2 = true ∧
      ∀ tok expiresIn, grant = .success tok expiresIn →
        getAccessToken s now grant =
          (.ok tok,
           ⟨some tok, some (now + (expiresIn - 60) * 1000)⟩, true)) := by
  constructor
  · intro t ht hc
    have hv : isTokenValid s now = true := (isTokenValid_iff_cacheHit s now).mpr hc
    simp [getAccessToken, hv, ht]
  · intro hnc
    have hv : isTokenValid s now = false := by
      cases hv : isTokenValid s now
      · rfl
      · exact absurd ((isTokenValid_iff_cacheHit s now).mp hv) hnc
    constructor
    · cases grant <;> simp [getAccessToken, hv]
    · intro tok expiresIn hg
      subst hg
      simp [getAccessToken, hv]

/-- Witness for C1 (amended) at concrete inputs: a valid cached token is
returned unchanged with no network call. -/
theorem c1_token_cache_determinism_witness :
    getAccessToken ⟨some "cached", some 1000000⟩ 0 (.success "other" 1800) =
      (.ok "cached", ⟨some "cached", some 1000000⟩, false) :=
  (c1_token_cache_determinism ⟨some "cached", some 1000000⟩ 0
    (.success "other" 1800)).1 "cached" rfl
    ⟨"cached", 1000000, rfl, by decide, rfl, by decide⟩

/-- C2: for every data-call error with HTTP status 401 (an error carrying
a response, hence no network-failure code), `handleError` clears the
cached token and raises the authentication error; from the cleared state
the next `getAccessToken` call always performs a network call. -/
theorem c2_401_invalidates_token (auth : AuthState) (e : AxError)
    (hax : e.isAxiosError = true)
    (hc1 : e.code ≠ some "ENOTFOUND") (hc2 : e.code ≠ some "ETIMEDOUT")
    (hst : e.status = some 401) :
    handleError auth e = (.authenticationFailed, ⟨none, none⟩) ∧
    ∀ now grant, (getAccessToken ⟨none, none⟩ now grant).2.2 = true := by
  constructor
  · simp [handleError, hax, hc1, hc2, hst, clearToken]
  · intro now grant
    cases grant <;> simp [getAccessToken, isTokenValid]

/-- Witness for C2: a concrete 401 error clears a concrete cached token
and the next token acquisition hits the network. -/
theorem c2_401_invalidates_token_witness :
    handleError ⟨some "cached", some 1000000⟩ { status := some 401 } =
      (.authenticationFailed, ⟨none, none⟩) ∧
    (getAccessToken ⟨none, none⟩ 0 (.success "fresh" 1800)).2.2 = true :=
  ⟨(c2_401_invalidates_token ⟨some "cached", some 1000000⟩ _ rfl
      (by decide) (by decide) rfl).1,
   (c2_401_invalidates_token ⟨some "cached", some 1000000⟩
      { status := some 401 } rfl (by decide) (by decide) rfl).2 0
      (.success "fresh" 1800)⟩

/-- C4: while a list load is outstanding (`isLoading = true`), a second
`getChildren` invocation returns an empty result and issues no backend
request, leaving the state unchanged; the first invocation from an idle
state does issue the request; after the outstanding load completes —
successfully or with an error — `isLoading` is cleared and a new
invocation issues a backend request again. -/
theorem c4_at_most_one_inflight_listing
    (fetch : Except String (List ContentAssetMetadata)) :
    getChildrenStart none { isLoading := true } =
      (.immediate [], { isLoading := true }, false) ∧
    getChildrenStart none { isLoading := false } =
      (.fetching, { isLoading := true }, true) ∧
    (getChildrenFinish fetch).2.isLoading = false ∧
    getChildrenStart none (getChildrenFinish fetch).2 =
      (.fetching, { isLoading := true }, true) := by
  refine ⟨rfl, rfl, ?_, ?_⟩ <;> cases fetch <;> rfl

/-- C6: on the records (id `b`, name `Alpha`), (id `a`, name `alpha`),
(id `c`, no name) — in that input order — the listing sort returns the
order b, a, c: the case-insensitive tie between `Alpha` and `alpha`
preserves the input order, and the nameless record keys by its id `c`. -/
theorem c6_listing_sort_example :
    sortAssets [assetNamedUpper, assetNamedLower, assetUnnamed] =
      [assetNamedUpper, assetNamedLower, assetUnnamed] ∧
    sortKey assetNamedUpper = sortKey assetNamedLower ∧
    sortKey assetUnnamed = ['c'] := by
  decide

/-- C3: (1) a 503 answered by a 200 on the second attempt succeeds after
exactly 2 attempts; (2) a 503 on every attempt exhausts the 3 configured
retries (4 attempts in total) and surfaces the final 503, which
`handleError` classifies as the backend-error class; (3) an error not
matching the retry condition propagates after a single attempt, unretried;
(4) non-idempotent methods (`put`/`patch`/`delete`) satisfy the retry
condition for a 5xx response and for a network error alike, so they are
retried under the same policy. -/
theorem c3_retry_policy (α : Type) (m : String) (a : α)
    (f g : Nat → Except AxError α) (e : AxError) (auth : AuthState) :
    (f 0 = .error { method := m, status := some 503 } → f 1 = .ok a →
      performDataCall f = (.ok a, 2)) ∧
    (performDataCall
        (fun _ => (.error { method := m, status := some 503 } : Except AxError α)) =
      (.error { method := m, status := some 503 }, 4)) ∧
    ((handleError auth { method := m, status := some 503 }).1 = .serverError 503) ∧
    (retryCondition e = false → g 0 = .error e →
      performDataCall g = (.error e, 1)) ∧
    (m ∈ ["put", "patch", "delete"] →
      retryCondition { method := m, status := some 503 } = true ∧
      retryCondition { method := m, code := some "ECONNRESET" } = true) := by
  have h503 : retryCondition { method := m, status := some 503 } = true := by
    simp [retryCondition]
  refine ⟨?_, ?_, ?_, ?_, ?_⟩
  · intro h0 h1
    simp [performDataCall, runRequest, h0, h1, h503]
  · simp [performDataCall, runRequest, h503]
  · simp [handleError, statusAtLeast500]
  · intro hc h0
    simp [performDataCall, runRequest, h0, hc]
  · intro _
    constructor
    · exact h503
    · simp [retryCondition, isNetworkOrIdempotentRequestError, isNetworkError,
        isRetryAllowed, retryDeniedCodes]

/-- Witness for C3 at concrete inputs: a `patch` call hit by a 503 then a
200 succeeds on attempt 2; all-503 exhausts the retries after 4 attempts;
a 404 is not retried and propagates after 1 attempt. -/
theorem c3_retry_policy_witness :
    performDataCall
        (fun n => if n = 0 then
          (.error { method := "patch", status := some 503 } : Except AxError Nat)
          else .ok 7) = (.ok 7, 2) ∧
    performDataCall
        (fun _ => (.error { method := "patch", status := some 503 } :
          Except AxError Nat)) =
      (.error { method := "patch", status := some 503 }, 4) ∧
    performDataCall
        (fun _ => (.error { method := "get", status := some 404 } :
          Except AxError Nat)) =
      (.error { method := "get", status := some 404 }, 1) ∧
    retryCondition { method := "patch", code := some "ECONNRESET" } = true := by
  refine ⟨?_, ?_, ?_, ?_⟩
  · exact (c3_retry_policy Nat "patch" 7
      (fun n => if n = 0 then
        .error { method := "patch", status := some 503 } else .ok 7)
      (fun _ => .error { method := "get", status := some 404 })
      { method := "get", status := some 404 } ⟨none, none⟩).1 rfl rfl
  · exact (c3_retry_policy Nat "patch" 7
      (fun _ => .error { method := "patch", status := some 503 })
      (fun _ => .error { method := "get", status := some 404 })
      { method := "get", status := some 404 } ⟨none, none⟩).2.1
  · exact (c3_retry_policy Nat "get" 7
      (fun _ => .error { method := "get", status := some 404 })
      (fun _ => .error { method := "get", status := some 404 })
      { method := "get", status := some 404 } ⟨none, none⟩).2.2.2.1
      (by decide) rfl
  · exact ((c3_retry_policy Nat "patch" 7
      (fun _ => .error { method := "patch", status := some 503 })
      (fun _ => .error { method := "get", status := some 404 })
      { method := "get", status := some 404 } ⟨none, none⟩).2.2.2.2
      (by decide)).2

/-- Inserting an element whose key differs from `k` does not change the
key-`k` elements of the list. -/
theorem filter_orderedInsert_of_ne (k : List Char) (x : ContentAssetMetadata)
    (l : List ContentAssetMetadata) (hx : sortKey x ≠ k) :
    (l.orderedInsert assetLE x).filter (fun a => decide (sortKey a = k)) =
      l.filter (fun a => decide (sortKey a = k)) := by
  induction l with
  | nil => simp [hx]
  | cons b t ih =>
    by_cases hab : assetLE x b
    · simp [List.orderedInsert, hab, hx]
    · simp [List.orderedInsert, hab, List.filter_cons, ih]

/-- Inserting an element with key `k` places it before every key-`k`
element already present: `orderedInsert` only passes over elements whose
key is strictly smaller. -/
theorem filter_orderedInsert_of_eq (k : List Char) (x : ContentAssetMetadata)
    (l : List ContentAssetMetadata) (hx : sortKey x = k) :
    (l.orderedInsert assetLE x).filter (fun a => decide (sortKey a = k)) =
      x :: l.filter (fun a => decide (sortKey a = k)) := by
  induction l with
  | nil => simp [hx]
  | cons b t ih =>
    by_cases hab : assetLE x b
    · simp [List.orderedInsert, hab, hx]
    · have hb : sortKey b ≠ k := by
        intro hbk
        exact hab (le_of_eq (by rw [hx, hbk] : sortKey x = sortKey b))
      simp [List.orderedInsert, hab, ih, hb]

/-- Stability of the listing sort: for every key, the sorted list carries
the key-equal records in their original input order. -/
theorem filter_sortAssets (k : List Char) (l : List ContentAssetMetadata) :
    (sortAssets l).filter (fun a => decide (sortKey a = k)) =
      l.filter (fun a => decide (sortKey a = k)) := by
  induction l with
  | nil => rfl
  | cons x t ih =>
    show ((sortAssets t).orderedInsert assetLE x).filter
        (fun a => decide (sortKey a = k)) = _
    by_cases hx : sortKey x = k
    · rw [filter_orderedInsert_of_eq k x (sortAssets t) hx, ih,
        List.filter_cons_of_pos (by simpa using hx)]
    · rw [filter_orderedInsert_of_ne k x (sortAssets t) hx, ih,
        List.filter_cons_of_neg (by simpa using hx)]

/-- C5 counterexample: the records (id `b`, name `Alpha`) then (id `a`,
name `alpha`) have equal case-insensitive keys and `a < b` as ids, yet the
sort keeps the order b, a — the tie is not broken by id ascending. -/
theorem c5_tiebreak_counterexample :
    sortKey assetNamedUpper = sortKey assetNamedLower ∧
    assetNamedLower.id.data < assetNamedUpper.id.data ∧
    sortAssets [assetNamedUpper, assetNamedLower] =
      [assetNamedUpper, assetNamedLower] ∧
    sortAssets [assetNamedUpper, assetNamedLower] ≠
      [assetNamedLower, assetNamedUpper] := by
  decide

/-- C5 (amended): the listing is a permutation of the input, ordered by
the case-insensitive display name with the id as key when no localized
name exists; ties between equal keys preserve the input's relative order
(stable sort) rather than being broken by id ascending. -/
theorem c5_listing_sort_rule (l : List ContentAssetMetadata) :
    (sortAssets l).Perm l ∧
    (sortAssets l).Sorted assetLE ∧
    ∀ k : List Char,
      (sortAssets l).filter (fun a => decide (sortKey a = k)) =
        l.filter (fun a => decide (sortKey a = k)) :=
  ⟨List.perm_insertionSort assetLE l,
   List.sorted_insertionSort assetLE l,
   fun k => filter_sortAssets k l⟩

/-- C7: a push of a bound buffer issues exactly one backend call, a PATCH
whose payload is exactly the single attribute `c_body` set to the current
buffer content — no other attribute of the record is sent — whether the
call succeeds or fails. -/
theorem c7_push_sends_only_body (ed : EditorDoc) (s : ExtensionState)
    (auth : AuthState) (asset : ContentAsset)
    (patchResult : Except AxError ContentAsset)
    (h : lookupAsset s.documentAssetMap ed.uri = some asset) :
    (pushCurrentDocument (some ed) s auth patchResult).calls =
      [.httpPatch asset.id [("c_body", ed.content)]] := by
  cases patchResult <;> simp [pushCurrentDocument, h]

/-- Witness for C7: pushing a concrete bound buffer sends only `c_body`
with the buffer text. -/
theorem c7_push_sends_only_body_witness :
    (pushCurrentDocument (some ⟨"uri1", "new body"⟩)
        ⟨[("uri1", ⟨"welcome", some "old", []⟩)], ["uri1"]⟩ ⟨none, none⟩
        (.ok ⟨"welcome", some "new body", []⟩)).calls =
      [.httpPatch "welcome" [("c_body", "new body")]] :=
  c7_push_sends_only_body ⟨"uri1", "new body"⟩
    ⟨[("uri1", ⟨"welcome", some "old", []⟩)], ["uri1"]⟩ ⟨none, none⟩
    ⟨"welcome", some "old", []⟩ (.ok ⟨"welcome", some "new body", []⟩) rfl

/-- C8: on a buffer with no record binding in `documentAssetMap`, both
push and pull refuse with the not-a-tracked-record outcome before any
token acquisition or HTTP call, leaving the sync state, the auth state
and the dirty set unchanged. -/
theorem c8_unbound_refusal (ed : EditorDoc) (s : ExtensionState)
    (auth : AuthState) (patchResult getResult : Except AxError ContentAsset)
    (answer : Option String)
    (h : lookupAsset s.documentAssetMap ed.uri = none) :
    pushCurrentDocument (some ed) s auth patchResult =
      ⟨.notTracked, s, auth, []⟩ ∧
    pullCurrentDocument (some ed) s auth answer getResult =
      ⟨.notTracked, s, auth, [], false, none⟩ := by
  constructor <;> simp [pushCurrentDocument, pullCurrentDocument, h]

/-- Witness for C8: push and pull on a buffer absent from an empty
tracker map are refused with no network calls and unchanged state. -/
theorem c8_unbound_refusal_witness :
    pushCurrentDocument (some ⟨"uri9", "text"⟩) ⟨[], []⟩ ⟨none, none⟩
        (.ok ⟨"x", none, []⟩) = ⟨.notTracked, ⟨[], []⟩, ⟨none, none⟩, []⟩ ∧
    pullCurrentDocument (some ⟨"uri9", "text"⟩) ⟨[], []⟩ ⟨none, none⟩ none
        (.ok ⟨"x", none, []⟩) =
      ⟨.notTracked, ⟨[], []⟩, ⟨none, none⟩, [], false, none⟩ :=
  c8_unbound_refusal ⟨"uri9", "text"⟩ ⟨[], []⟩ ⟨none, none⟩
    (.ok ⟨"x", none, []⟩) (.ok ⟨"x", none, []⟩) none rfl

/-- Deleting a URI from the dirty set removes it. -/
theorem not_mem_eraseDirty (d : List String) (u : String) :
    u ∉ eraseDirty d u := by
  simp [eraseDirty]

/-- C9: on a bound buffer, push leaves the buffer-to-record binding
unchanged in every case; on PATCH success it deletes the URI from the
dirty set; on PATCH error the whole sync state is unchanged; so the
buffer ends up non-dirty exactly when the PATCH succeeded or the buffer
was already clean. -/
theorem c9_push_dirty_atomicity (ed : EditorDoc) (s : ExtensionState)
    (auth : AuthState) (asset : ContentAsset)
    (patchResult : Except AxError ContentAsset)
    (h : lookupAsset s.documentAssetMap ed.uri = some asset) :
    (pushCurrentDocument (some ed) s auth patchResult).state.documentAssetMap =
      s.documentAssetMap ∧
    (∀ r, patchResult = .ok r →
      (pushCurrentDocument (some ed) s auth patchResult).state.dirtyDocuments =
        eraseDirty s.dirtyDocuments ed.uri) ∧
    (∀ e, patchResult = .error e →
      (pushCurrentDocument (some ed) s auth patchResult).state = s) ∧
    (ed.uri ∉ (pushCurrentDocument (some ed) s auth
        patchResult).state.dirtyDocuments ↔
      (∃ r, patchResult = .ok r) ∨ ed.uri ∉ s.dirtyDocuments) := by
  cases patchResult with
  | ok r =>
    refine ⟨?_, ?_, ?_, ?_⟩
    · simp [pushCurrentDocument, h]
    · intro r' _
      simp [pushCurrentDocument, h]
    · intro e he
      exact absurd he (by simp)
    · constructor
      · intro _
        exact Or.inl ⟨r, rfl⟩
      · intro _
        simpa [pushCurrentDocument, h] using not_mem_eraseDirty s.dirtyDocuments ed.uri
  | error e =>
    refine ⟨?_, ?_, ?_, ?_⟩
    · simp [pushCurrentDocument, h]
    · intro r hr
      exact absurd hr (by simp)
    · intro e' _
      simp [pushCurrentDocument, h]
    · simp [pushCurrentDocument, h]

/-- Witness for C9: a concrete failed PATCH leaves a dirty bound buffer
dirty and the binding unchanged. -/
theorem c9_push_dirty_atomicity_witness :
    (pushCurrentDocument (some ⟨"uri1", "edited"⟩)
        ⟨[("uri1", ⟨"welcome", some "old", []⟩)], ["uri1"]⟩ ⟨none, none⟩
        (.error { status := some 409 })).state =
      ⟨[("uri1", ⟨"welcome", some "old", []⟩)], ["uri1"]⟩ :=
  (c9_push_dirty_atomicity ⟨"uri1", "edited"⟩
    ⟨[("uri1", ⟨"welcome", some "old", []⟩)], ["uri1"]⟩ ⟨none, none⟩
    ⟨"welcome", some "old", []⟩ (.error { status := some 409 })
    rfl).2.2.1 { status := some 409 } rfl

/-- C10: pulling a bound dirty buffer first asks for confirmation that
local changes may be overwritten; unless the answer is `Pull Anyway`, the
pull returns cancelled with no network fetch, the buffer content not
replaced, and the sync state, dirty flag and auth state unchanged; with
the answer `Pull Anyway` the fetch is performed. -/
theorem c10_pull_dirty_confirmation (ed : EditorDoc) (s : ExtensionState)
    (auth : AuthState) (asset : ContentAsset) (answer : Option String)
    (getResult : Except AxError ContentAsset)
    (hb : lookupAsset s.documentAssetMap ed.uri = some asset)
    (hd : ed.uri ∈ s.dirtyDocuments) :
    (pullCurrentDocument (some ed) s auth answer getResult).askedConfirmation =
      true ∧
    (answer ≠ some "Pull Anyway" →
      pullCurrentDocument (some ed) s auth answer getResult =
        ⟨.cancelled, s, auth, [], true, none⟩) ∧
    (answer = some "Pull Anyway" →
      (pullCurrentDocument (some ed) s auth answer getResult).calls =
        [.httpGet asset.id]) := by
  by_cases ha : answer = some "Pull Anyway"
  · subst ha
    refine ⟨?_, fun hne => absurd rfl hne, fun _ => ?_⟩ <;>
      cases getResult <;> simp [pullCurrentDocument, hb, hd]
  · refine ⟨?_, fun _ => ?_, fun he => absurd he ha⟩ <;>
      simp [pullCurrentDocument, hb, hd, ha]

/-- Witness for C10: dismissing the warning on a concrete dirty buffer
cancels the pull with no network call and unchanged state. -/
theorem c10_pull_dirty_confirmation_witness :
    pullCurrentDocument (some ⟨"uri1", "edited"⟩)
        ⟨[("uri1", ⟨"welcome", some "old", []⟩)], ["uri1"]⟩ ⟨none, none⟩ none
        (.ok ⟨"welcome", some "server", []⟩) =
      ⟨.cancelled, ⟨[("uri1", ⟨"welcome", some "old", []⟩)], ["uri1"]⟩,
       ⟨none, none⟩, [], true, none⟩ :=
  (c10_pull_dirty_confirmation ⟨"uri1", "edited"⟩
    ⟨[("uri1", ⟨"welcome", some "old", []⟩)], ["uri1"]⟩ ⟨none, none⟩
    ⟨"welcome", some "old", []⟩ none (.ok ⟨"welcome", some "server", []⟩)
    rfl (by decide)).2.1 (by decide)

end SFCC
